import Mathlib

/-!
Verification development for the Ecommerce_API repository
(`src/Ecommerce_api/product/views.py`).

The Django REST Framework (DRF) views are shallowly embedded: each
permission class becomes a boolean function, each queryset becomes a
function from the stored record list (the database) to the visible list,
and each endpoint action becomes a function producing the response
status the policy layer yields (200/201/403/404, following the error
taxonomy the repository's test suite asserts: every denial surfaces as
403).  Framework glue that the views rely on is embedded from DRF's
documented semantics: `check_permissions` requires every permission
class's `has_permission` to return true; `get_object` looks the primary
key up in `get_queryset()` and raises 404 when absent; then
`check_object_permissions` requires every class's
`has_object_permission`; `BasePermission.has_object_permission`
defaults to true; `serializer.save(**kwargs)` merges kwargs over the
validated payload with kwargs taking precedence.  Django model
instances compare equal by primary key, so user references are embedded
as ids; Python `int(True) = 1` and `int(False) = 0` is embedded by
`boolToInt`, since a Django integer-field lookup coerces a boolean
argument through `int`.
-/

/-- A stored user record: primary key and the staff role flag. -/
structure User where
  id : Nat
  is_staff : Bool
  deriving DecidableEq, Repr

/-- The requesting identity: anonymous, or an authenticated user
(Django's `request.user` is `AnonymousUser` or a `User`). -/
inductive Actor where
  | anonymous
  | auth (u : User)
  deriving DecidableEq, Repr

/-- Django `request.user.is_authenticated`: false for `AnonymousUser`. -/
def Actor.is_authenticated : Actor → Bool
  | .anonymous => false
  | .auth _ => true

/-- Django `request.user.is_staff`: `AnonymousUser.is_staff` is false. -/
def Actor.is_staff : Actor → Bool
  | .anonymous => false
  | .auth u => u.is_staff

/-- HTTP method of the request (`request.method`). -/
inductive Method where
  | GET
  | HEAD
  | OPTIONS
  | POST
  | PUT
  | DELETE
  | PATCH
  deriving DecidableEq, Repr

/-- DRF `SAFE_METHODS = ('GET', 'HEAD', 'OPTIONS')`. -/
def SAFE_METHODS : List Method := [Method.GET, Method.HEAD, Method.OPTIONS]

/-- The response statuses the access-policy and query-shaping layers
produce: 200, 201, 403, 404. -/
inductive Response where
  | ok
  | created
  | forbidden
  | notFound
  deriving DecidableEq, Repr

/-- Numeric HTTP status code of a `Response`. -/
def Response.code : Response → Nat
  | .ok => 200
  | .created => 201
  | .forbidden => 403
  | .notFound => 404

/-- A stored category record (`Category` model): primary key and name. -/
structure Category where
  id : Nat
  name : String
  deriving DecidableEq, Repr

/-- A stored product record (`Product` model): name, decimal price
(embedded as a rational), integer stock_quantity, optional category
foreign key (stored as the category's primary key). -/
structure Product where
  id : Nat
  name : String
  price : Rat
  stock_quantity : Int
  category : Option Nat
  deriving DecidableEq, Repr

/-- A stored order record (`Order` model): primary key and the owner
foreign key `user` (stored as the owning user's primary key, which is
what Django compares on `obj.user == request.user`). -/
structure Order where
  id : Nat
  user : Nat
  deriving DecidableEq, Repr

/-- A stored review record (`Review` model): product foreign key,
rating, comment, and the author foreign key `user`. -/
structure Review where
  id : Nat
  product : Nat
  rating : Nat
  comment : String
  user : Nat
  deriving DecidableEq, Repr

/-- Does the order's `user` foreign key reference the requesting actor
(Django `obj.user == request.user`, primary-key equality; false for an
anonymous request)? -/
def Actor.ownsOrder : Actor → Order → Bool
  | .anonymous, _ => false
  | .auth u, o => o.user == u.id

/-- Python `int` applied to a boolean: `int(True) = 1`, `int(False) = 0`.
Django's integer-field lookups coerce boolean arguments this way. -/
def boolToInt (b : Bool) : Int :=
  if b then 1 else 0

namespace IsAuthenticated

/-- DRF `IsAuthenticated.has_permission`: the requesting user must be
authenticated. -/
def has_permission (a : Actor) : Bool :=
  a.is_authenticated

/-- `IsAuthenticated` inherits `BasePermission.has_object_permission`,
which returns `True` unconditionally, whatever the object. -/
def has_object_permission {α : Type} (_a : Actor) (_o : α) : Bool :=
  true

end IsAuthenticated

namespace IsAuthenticatedOrReadOnly

/-- DRF `IsAuthenticatedOrReadOnly.has_permission`: safe methods are
open to everyone; other methods require an authenticated user. -/
def has_permission (m : Method) (a : Actor) : Bool :=
  m ∈ SAFE_METHODS || a.is_authenticated

end IsAuthenticatedOrReadOnly

namespace IsAdminOrReadOnly

/-- `IsAdminOrReadOnly.has_permission` (views.py lines 118-127):
GET/HEAD/OPTIONS/POST require an authenticated user; every other
method requires `request.user.is_staff`. -/
def has_permission (m : Method) (a : Actor) : Bool :=
  if m ∈ [Method.GET, Method.HEAD, Method.OPTIONS, Method.POST] then
    a.is_authenticated
  else
    a.is_staff

/-- `IsAdminOrReadOnly.has_object_permission` (views.py lines 129-147):
GET is allowed when the object is owned by the requester; PUT and
DELETE are allowed for staff, or for the owner; everything else falls
through to the final `return False`. -/
def has_object_permission (m : Method) (a : Actor) (obj : Order) : Bool :=
  if m == Method.GET && a.ownsOrder obj then
    true
  else if m ∈ [Method.PUT, Method.DELETE] then
    if a.is_staff then
      true
    else
      a.ownsOrder obj
  else
    false

end IsAdminOrReadOnly

/-- Query parameters accepted by `ProductFilter` (views.py lines
53-72): optional `min_price`, `max_price`, `category`, `in_stock`. -/
structure ProductFilterParams where
  min_price : Option Rat
  max_price : Option Rat
  category : Option Nat
  in_stock : Option Bool
  deriving Repr

/-- Does one product pass every supplied filter of `ProductFilter`?
`min_price` is `price__gte`, `max_price` is `price__lte`, `category`
is an exact match, and `in_stock` is `stock_quantity__gt=<bool>`,
where Django coerces the boolean through `int` before the integer
comparison (`boolToInt`). -/
def ProductFilter.passes (params : ProductFilterParams) (p : Product) : Bool :=
  (match params.min_price with
    | none => true
    | some v => decide (v ≤ p.price)) &&
  (match params.max_price with
    | none => true
    | some v => decide (p.price ≤ v)) &&
  (match params.category with
    | none => true
    | some c => p.category == some c) &&
  (match params.in_stock with
    | none => true
    | some b => decide (boolToInt b < p.stock_quantity))

/-- Applying `ProductFilter` to a queryset: keep the products passing
every supplied filter (Django chains the `filter` calls, so the
conditions conjoin). -/
def ProductFilter.apply (params : ProductFilterParams) (qs : List Product) : List Product :=
  qs.filter (ProductFilter.passes params)

/-- `ProductViewSet.get_queryset` (views.py lines 98-104): the full
product table (`select_related` only prefetches, it does not narrow). -/
def ProductViewSet.get_queryset (db : List Product) : List Product :=
  db

/-- `CategoryViewSet.get_queryset` (views.py lines 198-202): all
categories. -/
def CategoryViewSet.get_queryset (db : List Category) : List Category :=
  db

/-- `UserViewSet.get_queryset` (views.py lines 39-47): staff see every
user; a regular user's queryset is filtered to `id=request.user.id`. -/
def UserViewSet.get_queryset (db : List User) (u : User) : List User :=
  if u.is_staff then
    db
  else
    db.filter (fun x => x.id == u.id)

/-- `OrderViewSet.get_queryset` (views.py lines 162-170): staff see
every order; otherwise the queryset is filtered to
`user=self.request.user` (foreign-key comparison by primary key; an
anonymous user matches no stored row). -/
def OrderViewSet.get_queryset (db : List Order) (a : Actor) : List Order :=
  if a.is_staff then
    db
  else
    db.filter (fun o => a.ownsOrder o)

/-- `UserViewSet.get_permissions` (views.py lines 30-37): the `create`
action runs with an empty permission list, every other action with
`[IsAuthenticated()]`.  Embedded as the list of collection-level
checks the action runs. -/
def UserViewSet.get_permissions (isCreate : Bool) : List (Actor → Bool) :=
  if isCreate then
    []
  else
    [IsAuthenticated.has_permission]

/-- DRF `check_permissions`: every permission class in the list must
grant `has_permission`. -/
def check_permissions (perms : List (Actor → Bool)) (a : Actor) : Bool :=
  perms.all (fun p => p a)

/-- Creating a user (`POST /users/`): the `create` action's permission
list is empty, so any actor, anonymous included, reaches the
serializer and the record is created (201). -/
def UserViewSet.create (a : Actor) : Response :=
  if check_permissions (UserViewSet.get_permissions true) a then
    Response.created
  else
    Response.forbidden

/-- Creating a product (`POST /products/`): `ProductViewSet` runs
`[IsAuthenticatedOrReadOnly]`. -/
def ProductViewSet.create (a : Actor) : Response :=
  if IsAuthenticatedOrReadOnly.has_permission Method.POST a then
    Response.created
  else
    Response.forbidden

/-- Listing products (`GET /products/`): permission check, then the
filtered queryset is returned.  The returned list is the visible set
(pagination slices it for display without changing membership). -/
def ProductViewSet.list (db : List Product) (a : Actor) (params : ProductFilterParams) : Response × List Product :=
  if IsAuthenticatedOrReadOnly.has_permission Method.GET a then
    (Response.ok, ProductFilter.apply params (ProductViewSet.get_queryset db))
  else
    (Response.forbidden, [])

/-- Listing categories (`GET /categories/`): `CategoryViewSet` runs
`[IsAuthenticatedOrReadOnly]` and returns the full category set. -/
def CategoryViewSet.list (db : List Category) (a : Actor) : Response × List Category :=
  if IsAuthenticatedOrReadOnly.has_permission Method.GET a then
    (Response.ok, CategoryViewSet.get_queryset db)
  else
    (Response.forbidden, [])

/-- Collection-level permission check of `OrderViewSet`
(`permission_classes = [IsAuthenticated, IsAdminOrReadOnly]`, all must
grant). -/
def OrderViewSet.check_permissions (m : Method) (a : Actor) : Bool :=
  IsAuthenticated.has_permission a && IsAdminOrReadOnly.has_permission m a

/-- Object-level permission check of `OrderViewSet` (every class's
`has_object_permission` must grant). -/
def OrderViewSet.check_object_permissions (m : Method) (a : Actor) (o : Order) : Bool :=
  IsAuthenticated.has_object_permission a o && IsAdminOrReadOnly.has_object_permission m a o

/-- One object-addressed request to `OrderViewSet` (retrieve, update,
delete share this shape in DRF): collection permissions, then
`get_object` looks the primary key up in `get_queryset()` (404 when
absent), then object permissions (403 when denied), then the action
runs (200). -/
def OrderViewSet.detailRequest (m : Method) (db : List Order) (a : Actor) (pk : Nat) : Response :=
  if OrderViewSet.check_permissions m a then
    match (OrderViewSet.get_queryset db a).find? (fun o => o.id == pk) with
    | none => Response.notFound
    | some o =>
      if OrderViewSet.check_object_permissions m a o then
        Response.ok
      else
        Response.forbidden
  else
    Response.forbidden

/-- `GET /orders/{pk}/`. -/
def OrderViewSet.retrieve (db : List Order) (a : Actor) (pk : Nat) : Response :=
  OrderViewSet.detailRequest Method.GET db a pk

/-- `PUT /orders/{pk}/`. -/
def OrderViewSet.update (db : List Order) (a : Actor) (pk : Nat) : Response :=
  OrderViewSet.detailRequest Method.PUT db a pk

/-- `DELETE /orders/{pk}/`. -/
def OrderViewSet.destroy (db : List Order) (a : Actor) (pk : Nat) : Response :=
  OrderViewSet.detailRequest Method.DELETE db a pk

/-- `POST /orders/`: only the collection-level check runs for create. -/
def OrderViewSet.create (a : Actor) : Response :=
  if OrderViewSet.check_permissions Method.POST a then
    Response.created
  else
    Response.forbidden

/-- A validated review-creation payload: the client-supplied fields,
including an optional client-supplied author id (`user`). -/
structure ReviewPayload where
  product : Nat
  rating : Nat
  comment : String
  user : Option Nat
  deriving DecidableEq, Repr

/-- DRF `serializer.save(**kwargs)` for a review: the saved record is
built from `validated_data` merged with the kwargs, kwargs taking
precedence, so a `user` kwarg overrides any client-supplied `user`.
`newId` is the primary key the store assigns. -/
def reviewSerializerSave (newId : Nat) (validated : ReviewPayload) (user_kwarg : Option Nat) : Review :=
  { id := newId
    product := validated.product
    rating := validated.rating
    comment := validated.comment
    user := (user_kwarg.orElse (fun _ => validated.user)).getD 0 }

/-- `ReviewViewSet.perform_create` (views.py lines 183-187):
`serializer.save(user=self.request.user)`. -/
def ReviewViewSet.perform_create (actor_user : User) (validated : ReviewPayload) (newId : Nat) : Review :=
  reviewSerializerSave newId validated (some actor_user.id)

/-- `POST /reviews/`: `ReviewViewSet` runs `[IsAuthenticated]`; on
success the created record is returned alongside 201. -/
def ReviewViewSet.create (a : Actor) (validated : ReviewPayload) (newId : Nat) : Response × Option Review :=
  if IsAuthenticated.has_permission a then
    match a with
    | .auth u => (Response.created, some (ReviewViewSet.perform_create u validated newId))
    | .anonymous => (Response.forbidden, none)
  else
    (Response.forbidden, none)

/-- `ReviewViewSet` queryset (views.py line 177):
`Review.objects.all()`, for every actor. -/
def ReviewViewSet.get_queryset (db : List Review) : List Review :=
  db

/-- One object-addressed request to `ReviewViewSet` (retrieve, update,
delete): collection check `[IsAuthenticated]`, lookup in the
unrestricted queryset, then object permissions — only
`IsAuthenticated`'s inherited default, which always grants. -/
def ReviewViewSet.detailRequest (_m : Method) (db : List Review) (a : Actor) (pk : Nat) : Response :=
  if IsAuthenticated.has_permission a then
    match (ReviewViewSet.get_queryset db).find? (fun r => r.id == pk) with
    | none => Response.notFound
    | some r =>
      if IsAuthenticated.has_object_permission a r then
        Response.ok
      else
        Response.forbidden
  else
    Response.forbidden

/-- `PUT /reviews/{pk}/`. -/
def ReviewViewSet.update (db : List Review) (a : Actor) (pk : Nat) : Response :=
  ReviewViewSet.detailRequest Method.PUT db a pk

/-- `DELETE /reviews/{pk}/`. -/
def ReviewViewSet.destroy (db : List Review) (a : Actor) (pk : Nat) : Response :=
  ReviewViewSet.detailRequest Method.DELETE db a pk

/-- C3: the claim fails on the in_stock half.  The product below has
price 15 (inside [10, 20]) and stock_quantity 1, so it is in stock in
the sense of the spec (stock_quantity > 0), yet the filter
`min_price=10&max_price=20&in_stock=true` excludes it: the boolean
`True` is coerced to the integer 1 by the `gt` lookup, so the code
keeps only stock_quantity > 1. -/
theorem c3_in_stock_excludes_stock_one :
    (0 : Int) < (Product.mk 1 "p" 15 1 none).stock_quantity ∧
    (10 : Rat) ≤ (Product.mk 1 "p" 15 1 none).price ∧
    (Product.mk 1 "p" 15 1 none).price ≤ (20 : Rat) ∧
    ProductFilter.apply ⟨some 10, some 20, none, some true⟩ [Product.mk 1 "p" 15 1 none] = [] := by
  refine ⟨by norm_num, by norm_num, by norm_num, ?_⟩
  decide

/-- C5: creating a review as an authenticated actor succeeds and the
stored record carries the acting user as its author field, whatever
author id the payload supplied. -/
theorem c5_review_author_is_acting_user (u : User) (validated : ReviewPayload) (newId : Nat) :
    (ReviewViewSet.create (Actor.auth u) validated newId).1 = Response.created ∧
    (ReviewViewSet.create (Actor.auth u) validated newId).2.map Review.user = some u.id := by
  simp [ReviewViewSet.create, ReviewViewSet.perform_create, reviewSerializerSave,
    IsAuthenticated.has_permission, Actor.is_authenticated, Option.orElse]

/-- C6: an anonymous actor creating a User succeeds (201); an
anonymous actor creating a Product, an Order, or a Review is denied
(403). -/
theorem c6_anonymous_create_matrix :
    UserViewSet.create Actor.anonymous = Response.created ∧
    ProductViewSet.create Actor.anonymous = Response.forbidden ∧
    OrderViewSet.create Actor.anonymous = Response.forbidden ∧
    ∀ (p : ReviewPayload) (n : Nat),
      (ReviewViewSet.create Actor.anonymous p n).1 = Response.forbidden := by
  refine ⟨by decide, by decide, by decide, ?_⟩
  intro p n
  rfl

/-- C7: listing products and listing categories succeeds with 200 for
every actor, authenticated or anonymous, and the visible product set
of a plain list request (no filter parameters) is the full catalog,
independent of the actor. -/
theorem c7_product_category_list_open (pdb : List Product) (cdb : List Category) (a : Actor) :
    (ProductViewSet.list pdb a ⟨none, none, none, none⟩).1 = Response.ok ∧
    (ProductViewSet.list pdb a ⟨none, none, none, none⟩).2 = pdb ∧
    (CategoryViewSet.list cdb a).1 = Response.ok ∧
    (CategoryViewSet.list cdb a).2 = cdb := by
  have hperm : IsAuthenticatedOrReadOnly.has_permission Method.GET a = true := by
    simp [IsAuthenticatedOrReadOnly.has_permission, SAFE_METHODS]
  refine ⟨?_, ?_, ?_, ?_⟩ <;>
    simp [ProductViewSet.list, CategoryViewSet.list, hperm,
      ProductViewSet.get_queryset, CategoryViewSet.get_queryset,
      ProductFilter.apply, ProductFilter.passes]

/-- C9: for every authenticated actor, staff or not, author or not,
updating and deleting a review succeeds exactly when a review with the
requested primary key exists: the review endpoint runs no object-level
ownership check, and its queryset is all reviews. -/
theorem c9_review_no_object_ownership (db : List Review) (u : User) (pk : Nat) :
    (ReviewViewSet.update db (Actor.auth u) pk = Response.ok ↔
      (db.find? (fun r => r.id == pk)).isSome = true) ∧
    (ReviewViewSet.destroy db (Actor.auth u) pk = Response.ok ↔
      (db.find? (fun r => r.id == pk)).isSome = true) ∧
    ReviewViewSet.get_queryset db = db := by
  refine ⟨?_, ?_, rfl⟩ <;>
  · cases hf : db.find? (fun r => r.id == pk) <;>
      simp [ReviewViewSet.update, ReviewViewSet.destroy, ReviewViewSet.detailRequest,
        ReviewViewSet.get_queryset, IsAuthenticated.has_permission,
        IsAuthenticated.has_object_permission, Actor.is_authenticated, hf]

/-- C10: the order object-level permission can only ever grant GET,
PUT, or DELETE; for every actor (staff included) and every order, a
PATCH — and any other method outside those three — is denied. -/
theorem c10_order_object_denies_other_methods (a : Actor) (o : Order) :
    IsAdminOrReadOnly.has_object_permission Method.PATCH a o = false ∧
    ∀ m : Method, m ∉ [Method.GET, Method.PUT, Method.DELETE] →
      IsAdminOrReadOnly.has_object_permission m a o = false := by
  constructor
  · simp [IsAdminOrReadOnly.has_object_permission]
  · intro m hm
    cases m <;> simp_all [IsAdminOrReadOnly.has_object_permission]

/-- C10 witness: the object-level permission denies POST on a concrete
order even for a staff actor. -/
theorem c10_witness :
    IsAdminOrReadOnly.has_object_permission Method.POST
      (Actor.auth (User.mk 1 true)) (Order.mk 10 1) = false :=
  (c10_order_object_denies_other_methods (Actor.auth (User.mk 1 true)) (Order.mk 10 1)).2
    Method.POST (by decide)

/-- C1 counterexample: a staff actor (id 1) retrieving the stored
order with primary key 10, owned by user 2, is denied: the object
check grants GET only to the owner, so the response is 403, not the
200 the claim requires for every staff actor and every order. -/
theorem c1_counterexample :
    (Actor.auth (User.mk 1 true)).is_staff = true ∧
    OrderViewSet.retrieve [Order.mk 10 2] (Actor.auth (User.mk 1 true)) 10 =
      Response.forbidden ∧
    OrderViewSet.retrieve [Order.mk 10 2] (Actor.auth (User.mk 1 true)) 10 ≠
      Response.ok := by
  decide

/-- C1 amended: a staff actor sees every order in the queryset, so the
lookup never 404s on a stored key, but the retrieve succeeds (200)
only when the staff actor owns the found order; otherwise the
object-level check denies it (403). -/
theorem c1_staff_retrieve_requires_ownership (db : List Order) (u : User) (pk : Nat)
    (o : Order) (hs : u.is_staff = true)
    (hf : db.find? (fun x => x.id == pk) = some o) :
    OrderViewSet.retrieve db (Actor.auth u) pk =
      if o.user == u.id then Response.ok else Response.forbidden := by
  by_cases ho : o.user = u.id <;>
    simp [OrderViewSet.retrieve, OrderViewSet.detailRequest, OrderViewSet.check_permissions,
      IsAuthenticated.has_permission, Actor.is_authenticated, IsAdminOrReadOnly.has_permission,
      OrderViewSet.get_queryset, Actor.is_staff, hs, hf,
      OrderViewSet.check_object_permissions, IsAuthenticated.has_object_permission,
      IsAdminOrReadOnly.has_object_permission, Actor.ownsOrder, ho]

/-- C1 witness: a staff actor retrieving an order it owns gets 200. -/
theorem c1_witness :
    OrderViewSet.retrieve [Order.mk 10 1] (Actor.auth (User.mk 1 true)) 10 =
      Response.ok := by
  have h := c1_staff_retrieve_requires_ownership [Order.mk 10 1] (User.mk 1 true) 10
    (Order.mk 10 1) rfl rfl
  simpa using h

/-- C2 counterexample: a non-staff actor (id 2) owning the stored
order 10 is denied PUT and DELETE on it: the collection-level gate
requires staff before the object-level owner clause is ever consulted,
so the owner disjunct the claim requires does not hold. -/
theorem c2_counterexample :
    (Actor.auth (User.mk 2 false)).ownsOrder (Order.mk 10 2) = true ∧
    OrderViewSet.update [Order.mk 10 2] (Actor.auth (User.mk 2 false)) 10 =
      Response.forbidden ∧
    OrderViewSet.destroy [Order.mk 10 2] (Actor.auth (User.mk 2 false)) 10 =
      Response.forbidden := by
  decide

/-- C2 amended: update (PUT) and delete of an order succeed exactly
for authenticated staff actors on an existing key; the two gates
combine as a conjunction, so a non-staff owner is rejected at the
collection gate and the object-level owner clause is unreachable;
anonymous actors are always denied. -/
theorem c2_order_write_requires_staff (db : List Order) (u : User) (pk : Nat) :
    (OrderViewSet.update db (Actor.auth u) pk = Response.ok ↔
      u.is_staff = true ∧ (db.find? (fun o => o.id == pk)).isSome = true) ∧
    (OrderViewSet.destroy db (Actor.auth u) pk = Response.ok ↔
      u.is_staff = true ∧ (db.find? (fun o => o.id == pk)).isSome = true) ∧
    OrderViewSet.update db Actor.anonymous pk = Response.forbidden ∧
    OrderViewSet.destroy db Actor.anonymous pk = Response.forbidden := by
  refine ⟨?_, ?_, rfl, rfl⟩ <;>
  · cases hs : u.is_staff
    · simp [OrderViewSet.update, OrderViewSet.destroy, OrderViewSet.detailRequest,
        OrderViewSet.check_permissions, IsAuthenticated.has_permission,
        Actor.is_authenticated, IsAdminOrReadOnly.has_permission, Actor.is_staff, hs]
    · cases hf : db.find? (fun o => o.id == pk) <;>
        simp [OrderViewSet.update, OrderViewSet.destroy, OrderViewSet.detailRequest,
          OrderViewSet.check_permissions, IsAuthenticated.has_permission,
          Actor.is_authenticated, IsAdminOrReadOnly.has_permission,
          OrderViewSet.get_queryset, Actor.is_staff, hs, hf,
          OrderViewSet.check_object_permissions, IsAuthenticated.has_object_permission,
          IsAdminOrReadOnly.has_object_permission, Actor.ownsOrder]

/-- C4: for a non-staff authenticated actor the order queryset is
scoped to the orders the actor owns, so retrieving an order id that
the actor does not own answers 404 (no data of the foreign record is
ever reached), while retrieving an order the actor owns answers
200. -/
theorem c4_order_retrieve_ownership_scoped (db : List Order) (u : User) (pk : Nat)
    (hs : u.is_staff = false) :
    ((∀ o ∈ db, o.id = pk → o.user ≠ u.id) →
      OrderViewSet.retrieve db (Actor.auth u) pk = Response.notFound) ∧
    ((∃ o ∈ db, o.id = pk ∧ o.user = u.id) →
      OrderViewSet.retrieve db (Actor.auth u) pk = Response.ok) := by
  have hq : OrderViewSet.get_queryset db (Actor.auth u)
      = db.filter (fun o => (Actor.auth u).ownsOrder o) := by
    simp [OrderViewSet.get_queryset, Actor.is_staff, hs]
  constructor
  · intro h
    have hnone : (db.filter (fun o => (Actor.auth u).ownsOrder o)).find?
        (fun o => o.id == pk) = none := by
      rw [List.find?_eq_none]
      intro x hx
      rcases List.mem_filter.mp hx with ⟨hxdb, hxown⟩
      have hxu : x.user = u.id := by simpa [Actor.ownsOrder] using hxown
      intro hid
      exact h x hxdb (by simpa using hid) hxu
    simp [OrderViewSet.retrieve, OrderViewSet.detailRequest, OrderViewSet.check_permissions,
      IsAuthenticated.has_permission, Actor.is_authenticated, IsAdminOrReadOnly.has_permission,
      hq, hnone]
  · rintro ⟨o, hdb, hid, hu⟩
    have hmem : o ∈ db.filter (fun x => (Actor.auth u).ownsOrder x) :=
      List.mem_filter.mpr ⟨hdb, by simp [Actor.ownsOrder, hu]⟩
    have hsome : ((db.filter (fun x => (Actor.auth u).ownsOrder x)).find?
        (fun x => x.id == pk)).isSome := by
      rw [List.find?_isSome]
      exact ⟨o, hmem, by simp [hid]⟩
    obtain ⟨o2, ho2⟩ := Option.isSome_iff_exists.mp hsome
    have ho2own : o2.user = u.id := by
      have hf := (List.mem_filter.mp (List.mem_of_find?_eq_some ho2)).2
      simpa [Actor.ownsOrder] using hf
    simp only [OrderViewSet.retrieve, OrderViewSet.detailRequest, hq, ho2]
    simp [OrderViewSet.check_permissions, IsAuthenticated.has_permission,
      Actor.is_authenticated, IsAdminOrReadOnly.has_permission,
      OrderViewSet.check_object_permissions, IsAuthenticated.has_object_permission,
      IsAdminOrReadOnly.has_object_permission, Actor.ownsOrder, ho2own]

/-- C4 witness: user 1 (non-staff) gets 404 on order 10, owned by user
2, and 200 on order 11, which user 1 owns. -/
theorem c4_witness :
    OrderViewSet.retrieve [Order.mk 10 2] (Actor.auth (User.mk 1 false)) 10 =
      Response.notFound ∧
    OrderViewSet.retrieve [Order.mk 11 1] (Actor.auth (User.mk 1 false)) 11 =
      Response.ok := by
  constructor
  · exact (c4_order_retrieve_ownership_scoped [Order.mk 10 2] (User.mk 1 false) 10 rfl).1
      (by decide)
  · exact (c4_order_retrieve_ownership_scoped [Order.mk 11 1] (User.mk 1 false) 11 rfl).2
      ⟨Order.mk 11 1, by decide, rfl, rfl⟩

/-- Filtering a duplicate-free user table down to one id keeps exactly
the one record carrying it. -/
theorem user_filter_pairwise_eq (db : List User) (u : User)
    (hmem : u ∈ db) (hpw : db.Pairwise (fun a b => a.id ≠ b.id)) :
    db.filter (fun x => x.id == u.id) = [u] := by
  induction db with
  | nil => cases hmem
  | cons h t ih =>
    rcases List.pairwise_cons.mp hpw with ⟨hh, ht⟩
    rcases List.mem_cons.mp hmem with heq | hmt
    · subst heq
      have htn : t.filter (fun x => x.id == u.id) = [] := by
        rw [List.filter_eq_nil_iff]
        intro x hx
        simp only [beq_iff_eq]
        exact fun hxe => (hh x hx) hxe.symm
      simp [List.filter_cons, htn]
    · have hne : h.id ≠ u.id := hh u hmt
      simp only [List.filter_cons, beq_iff_eq, hne, if_false]
      exact ih hmt ht

/-- C8: the visible user set is the whole table for a staff actor; for
a non-staff actor it is exactly the records carrying the actor's own
id — in particular, when the table has pairwise-distinct ids and
contains the actor, it is precisely the actor's single record. -/
theorem c8_user_visible_set (db : List User) (u : User) :
    (u.is_staff = true → UserViewSet.get_queryset db u = db) ∧
    (u.is_staff = false →
      ∀ x, x ∈ UserViewSet.get_queryset db u ↔ x ∈ db ∧ x.id = u.id) ∧
    (u.is_staff = false → u ∈ db → db.Pairwise (fun a b => a.id ≠ b.id) →
      UserViewSet.get_queryset db u = [u]) := by
  refine ⟨fun hs => by simp [UserViewSet.get_queryset, hs],
    fun hs x => ?_, fun hs hm hp => ?_⟩
  · simp [UserViewSet.get_queryset, hs, List.mem_filter]
  · simpa [UserViewSet.get_queryset, hs] using user_filter_pairwise_eq db u hm hp

/-- C8 witness: on a two-user table the staff user sees both records
and the regular user sees exactly its own. -/
theorem c8_witness :
    UserViewSet.get_queryset [User.mk 1 true, User.mk 2 false] (User.mk 1 true) =
      [User.mk 1 true, User.mk 2 false] ∧
    UserViewSet.get_queryset [User.mk 1 true, User.mk 2 false] (User.mk 2 false) =
      [User.mk 2 false] := by
  constructor
  · exact (c8_user_visible_set [User.mk 1 true, User.mk 2 false] (User.mk 1 true)).1 rfl
  · exact (c8_user_visible_set [User.mk 1 true, User.mk 2 false] (User.mk 2 false)).2.2
      rfl (by decide) (by decide)
